import Mathlib

/-!
Verification of the transcript-to-question pipeline and streaming answer
client of the interview-helper repository.

Conventions of the embedding:
* JavaScript strings are modelled as Lean `String`s (lists of characters).
  The JS string builtins used by the source (`trim`, `toLowerCase`, `split`,
  `substring`, `startsWith`, `includes`) are embedded as structurally
  recursive functions over `String.data` so that every definition evaluates
  inside the kernel.
* JavaScript numbers are modelled exactly as unreduced fractions
  (structure `JsNum`, an integer numerator and a natural denominator);
  all numeric literals of the source are decimal fractions, so this model
  is exact.  Comparisons are by cross multiplication.
* Effects (clock reads, HTTP responses, stream chunks) are passed as
  explicit inputs.
-/

set_option maxRecDepth 1000000

namespace InterviewHelper

/-! ### String helpers (embeddings of the JS string builtins) -/

/-- Embedding of `String.prototype.toLowerCase` (ASCII-faithful). -/
def strLower (s : String) : String := ⟨s.data.map Char.toLower⟩

/-- Embedding of `String.prototype.trim`: strips whitespace from both ends. -/
def strTrim (s : String) : String :=
  ⟨((s.data.dropWhile Char.isWhitespace).reverse.dropWhile Char.isWhitespace).reverse⟩

/-- Embedding of `String.prototype.startsWith`. -/
def strStarts (s p : String) : Bool := p.data.isPrefixOf s.data

/-- Embedding of the regex anchor `$` test: does `s` end with `p`. -/
def strEnds (s p : String) : Bool := p.data.isSuffixOf s.data

/-- Embedding of `String.prototype.includes`: `sub` occurs somewhere in `s`. -/
def strContains (s sub : String) : Bool :=
  (List.range (s.data.length + 1)).any (fun k => sub.data.isPrefixOf (s.data.drop k))

/-- Embedding of `String.prototype.substring(n)` (drop the first `n` chars). -/
def strDropN (s : String) (n : Nat) : String := ⟨s.data.drop n⟩

/-- Helper for `strSplitChar`: accumulates the current piece in reverse. -/
def splitCharAux (sep : Char) : List Char → List Char → List String
  | [], acc => [⟨acc.reverse⟩]
  | c :: rest, acc =>
    if c = sep then ⟨acc.reverse⟩ :: splitCharAux sep rest []
    else splitCharAux sep rest (c :: acc)

/-- Embedding of `String.prototype.split(sep)` for a one-character separator. -/
def strSplitChar (s : String) (sep : Char) : List String := splitCharAux sep s.data []

/-! ### Exact model of JavaScript numbers

All numbers occurring in the source are decimal fractions, represented here
exactly as an unreduced numerator/denominator pair.  Denominators of every
value the program builds are positive.  Comparison is by cross
multiplication, which agrees with the rational order on positive
denominators. -/

structure JsNum where
  num : Int
  den : Nat
deriving DecidableEq

/-- Addition of exact fractions. -/
def JsNum.add (a b : JsNum) : JsNum := ⟨a.num * b.den + b.num * a.den, a.den * b.den⟩

/-- Subtraction of exact fractions. -/
def JsNum.sub (a b : JsNum) : JsNum := ⟨a.num * b.den - b.num * a.den, a.den * b.den⟩

/-- Multiplication of exact fractions. -/
def JsNum.mul (a b : JsNum) : JsNum := ⟨a.num * b.num, a.den * b.den⟩

/-- Division of exact fractions (the source only divides by positive values). -/
def JsNum.div (a b : JsNum) : JsNum :=
  ⟨a.num * b.den * b.num.sign, a.den * b.num.natAbs⟩

/-- Strict order on exact fractions (cross multiplication). -/
def JsNum.lt (a b : JsNum) : Prop := a.num * b.den < b.num * a.den

/-- Non-strict order on exact fractions (cross multiplication). -/
def JsNum.le (a b : JsNum) : Prop := a.num * b.den ≤ b.num * a.den

/-- Value equality of exact fractions (cross multiplication). -/
def JsNum.eqv (a b : JsNum) : Prop := a.num * b.den = b.num * a.den

instance (a b : JsNum) : Decidable (JsNum.lt a b) := by
  unfold JsNum.lt; infer_instance

instance (a b : JsNum) : Decidable (JsNum.le a b) := by
  unfold JsNum.le; infer_instance

instance (a b : JsNum) : Decidable (JsNum.eqv a b) := by
  unfold JsNum.eqv; infer_instance

/-- Boolean strict comparison, used where the source writes `x > y` (as
`JsNum.blt y x`). -/
def JsNum.blt (a b : JsNum) : Bool := decide (JsNum.lt a b)

/-- Embedding of `Math.min` on two numbers. -/
def JsNum.min (a b : JsNum) : JsNum := if JsNum.blt a b then a else b

/-- Injection of a JS integer (e.g. a string length) into `JsNum`. -/
def natToJs (n : Nat) : JsNum := ⟨Int.ofNat n, 1⟩

/-- The number one, returned by `calculateSimilarity` for two empty strings. -/
def JsNum.one : JsNum := ⟨1, 1⟩

/-! ### SimilarityScorer (`calculateSimilarity`, `levenshteinDistance` of the
VoiceUI component)

The source fills a `(b.length+1) × (a.length+1)` matrix row by row:
`matrix[i][0] = i`, `matrix[0][j] = j`, and
`matrix[i][j] = min(matrix[i-1][j] + 1, matrix[i][j-1] + 1,
matrix[i-1][j-1] + cost)` with `cost = (a[j-1] === b[i-1] ? 0 : 1)`,
returning `matrix[b.length][a.length]`.  The embedding computes the same
rows: `levRowGo` produces the entries `matrix[i][1..]` of a row from the
previous row, walking `a` and the previous row in lockstep while carrying
the diagonal (`matrix[i-1][j-1]`) and left (`matrix[i][j-1]`) entries. -/

def levRowGo : List Char → List Nat → Char → Nat → Nat → List Nat
  | [], _, _, _, _ => []
  | _ :: _, [], _, _, _ => []
  | ac :: arest, pj :: prest, bc, diag, left =>
    let cost := if ac = bc then 0 else 1
    let cur := Nat.min (pj + 1) (Nat.min (left + 1) (diag + cost))
    cur :: levRowGo arest prest bc pj cur

/-- One row step of the Levenshtein matrix: from row `i-1` (`prev`) to row
`i`, whose first entry (`matrix[i][0]`) is `matrix[i-1][0] + 1 = i`. -/
def levNextRow (ac : List Char) (prev : List Nat) (bc : Char) : List Nat :=
  match prev with
  | [] => []
  | p0 :: ps => (p0 + 1) :: levRowGo ac ps bc p0 (p0 + 1)

/-- Embedding of the source's `levenshteinDistance(a, b)`. -/
def levenshteinDistance (a b : String) : Nat :=
  ((b.data).foldl (levNextRow a.data) (List.range (a.data.length + 1))).getLastD 0

/-- Embedding of the source's `calculateSimilarity(a, b)`:
`1 - distance/maxLength` over the lowercased strings, `1` when both are
empty. -/
def calculateSimilarity (a b : String) : JsNum :=
  let maxLength := Nat.max a.length b.length
  if maxLength = 0 then JsNum.one
  else JsNum.sub JsNum.one
    (JsNum.div (natToJs (levenshteinDistance (strLower a) (strLower b))) (natToJs maxLength))

/-! #### Correctness apparatus for the Levenshtein embedding

`levSpec` is the textbook recursive edit distance.  The matrix of the
source computes distances of *prefixes*, whose recurrence peels characters
from the back; `levSpec` peels from the front, so the matrix rows are
related to `levSpec` applied to *reversed* prefixes.  This is enough to
derive symmetry of the implemented distance. -/

def levSpec : List Char → List Char → Nat
  | [], ys => ys.length
  | x :: xs, [] => (x :: xs).length
  | x :: xs, y :: ys =>
    Nat.min (levSpec xs (y :: ys) + 1)
      (Nat.min (levSpec (x :: xs) ys + 1) (levSpec xs ys + (if x = y then 0 else 1)))
termination_by xs ys => (xs.length, ys.length)

theorem levSpec_nil_right (xs : List Char) : levSpec xs [] = xs.length := by
  cases xs <;> simp [levSpec]

theorem natMin_rot (a b c : Nat) : Nat.min a (Nat.min b c) = Nat.min b (Nat.min a c) := by
  simp only [Nat.min_def]
  repeat' split
  all_goals omega

theorem natMax_comm (a b : Nat) : Nat.max a b = Nat.max b a := by
  simp only [Nat.max_def]
  repeat' split
  all_goals omega

theorem levSpec_comm_aux :
    ∀ n xs ys, xs.length + ys.length ≤ n → levSpec xs ys = levSpec ys xs := by
  intro n
  induction n with
  | zero =>
    intro xs ys h
    have hx : xs = [] := by cases xs <;> simp_all
    have hy : ys = [] := by cases ys <;> simp_all
    simp [hx, hy]
  | succ n ih =>
    intro xs ys h
    cases xs with
    | nil => simp [levSpec, levSpec_nil_right]
    | cons x xs =>
      cases ys with
      | nil => simp [levSpec, levSpec_nil_right]
      | cons y ys =>
        have h1 : xs.length + (y :: ys).length ≤ n := by
          simp at h ⊢; omega
        have h2 : (x :: xs).length + ys.length ≤ n := by
          simp at h ⊢; omega
        have h3 : xs.length + ys.length ≤ n := by
          simp at h ⊢; omega
        have e1 := ih xs (y :: ys) h1
        have e2 := ih (x :: xs) ys h2
        have e3 := ih xs ys h3
        have hc : (if x = y then 0 else 1) = (if y = x then 0 else 1) := by
          by_cases hxy : x = y
          · simp [hxy]
          · rw [if_neg hxy, if_neg (fun hyx : y = x => hxy hyx.symm)]
        rw [levSpec, levSpec, e1, e2, e3, hc]
        exact natMin_rot _ _ _

theorem levSpec_comm (xs ys : List Char) : levSpec xs ys = levSpec ys xs :=
  levSpec_comm_aux (xs.length + ys.length) xs ys le_rfl

/-- The intended value of the entries `matrix[i][1..]` of a row, as edit
distances of reversed prefixes: walking the suffix `suf` of `a` while
`rpre` holds the reversed prefix consumed so far, against the reversed
processed part `w` of `b`. -/
def rowSpec (w : List Char) : List Char → List Char → List Nat
  | [], _ => []
  | x :: suf, rpre => levSpec (x :: rpre) w :: rowSpec w suf (x :: rpre)

theorem levRowGo_spec (w : List Char) (bc : Char) :
    ∀ suf rpre,
      levRowGo suf (rowSpec w suf rpre) bc (levSpec rpre w) (levSpec rpre (bc :: w))
        = rowSpec (bc :: w) suf rpre := by
  intro suf
  induction suf with
  | nil => intro rpre; simp [levRowGo, rowSpec]
  | cons x suf ih =>
    intro rpre
    have hcur :
        Nat.min (levSpec (x :: rpre) w + 1)
          (Nat.min (levSpec rpre (bc :: w) + 1)
            (levSpec rpre w + (if x = bc then 0 else 1)))
          = levSpec (x :: rpre) (bc :: w) := by
      rw [levSpec]
      exact natMin_rot _ _ _
    simp only [rowSpec, levRowGo, hcur]
    rw [ih (x :: rpre)]

theorem levNextRow_spec (ac w : List Char) (bc : Char) :
    levNextRow ac (levSpec [] w :: rowSpec w ac []) bc
      = levSpec [] (bc :: w) :: rowSpec (bc :: w) ac [] := by
  have h0 : levSpec [] w + 1 = levSpec [] (bc :: w) := by simp [levSpec]
  show (levSpec [] w + 1) :: levRowGo ac (rowSpec w ac []) bc (levSpec [] w) (levSpec [] w + 1)
      = levSpec [] (bc :: w) :: rowSpec (bc :: w) ac []
  rw [h0]
  exact congrArg (levSpec [] (bc :: w) :: ·) (levRowGo_spec w bc ac [])

theorem levRows_spec (ac : List Char) :
    ∀ (bcs : List Char) (w : List Char),
      bcs.foldl (levNextRow ac) (levSpec [] w :: rowSpec w ac [])
        = levSpec [] (bcs.reverse ++ w) :: rowSpec (bcs.reverse ++ w) ac [] := by
  intro bcs
  induction bcs with
  | nil => intro w; simp
  | cons bc bcs ih =>
    intro w
    simp only [List.foldl_cons, levNextRow_spec]
    rw [ih (bc :: w)]
    simp

theorem rowSpec_nil :
    ∀ (suf rpre : List Char), rowSpec [] suf rpre = List.range' (rpre.length + 1) suf.length := by
  intro suf
  induction suf with
  | nil => intro rpre; simp [rowSpec]
  | cons x suf ih =>
    intro rpre
    rw [rowSpec, ih (x :: rpre), levSpec_nil_right]
    simp only [List.length_cons]
    rw [List.range'_succ]

theorem getLastD_rowSpec (w : List Char) :
    ∀ (suf rpre : List Char),
      (levSpec rpre w :: rowSpec w suf rpre).getLastD 0 = levSpec (suf.reverse ++ rpre) w := by
  intro suf
  induction suf with
  | nil => intro rpre; simp [rowSpec]
  | cons x suf ih =>
    intro rpre
    rw [rowSpec]
    have : (levSpec rpre w :: levSpec (x :: rpre) w :: rowSpec w suf (x :: rpre)).getLastD 0
        = (levSpec (x :: rpre) w :: rowSpec w suf (x :: rpre)).getLastD 0 := by
      simp [List.getLastD]
    rw [this, ih (x :: rpre)]
    simp

/-- The implemented DP equals the textbook edit distance of the reversed
strings. -/
theorem levenshteinDistance_eq (a b : String) :
    levenshteinDistance a b = levSpec a.data.reverse b.data.reverse := by
  unfold levenshteinDistance
  have hinit : List.range (a.data.length + 1) = levSpec [] [] :: rowSpec [] a.data [] := by
    rw [rowSpec_nil]
    rw [List.range_eq_range', List.range'_succ]
    simp [levSpec]
  rw [hinit, levRows_spec a.data b.data [], List.append_nil, getLastD_rowSpec]
  rw [List.append_nil]

/-- Symmetry of the implemented Levenshtein distance. -/
theorem levenshteinDistance_comm (a b : String) :
    levenshteinDistance a b = levenshteinDistance b a := by
  rw [levenshteinDistance_eq, levenshteinDistance_eq, levSpec_comm]

/-- Symmetry of the implemented similarity score (helper used by several
results below). -/
theorem calculateSimilarity_comm (a b : String) :
    calculateSimilarity a b = calculateSimilarity b a := by
  unfold calculateSimilarity
  rw [natMax_comm a.length b.length, levenshteinDistance_comm (strLower a) (strLower b)]

/-! ### TechnicalQuestionDetector

Embedding of `src/TechnicalQuestionDetector.ts`.  The keyword table keeps
the source's object-literal order (JS object iteration order is insertion
order); each entry pairs the `TechnicalDomain` enum value with its keyword
vocabulary. -/

def technicalKeywords : List (String × List String) :=
  [ ("programming",
     ["function", "method", "class", "object", "variable", "loop", "array",
      "algorithm", "runtime", "compile", "debug", "error", "exception",
      "syntax", "javascript", "python", "java", "c#", "typescript", "ruby",
      "rust", "go", "php", "swift", "kotlin", "code", "compiler", "interpreter",
      "recursion", "iteration", "inheritance", "polymorphism", "encapsulation",
      "data structure", "framework", "library", "api", "sdk", "lint", "import"]),
    ("devops",
     ["ci/cd", "pipeline", "jenkins", "docker", "kubernetes", "container",
      "orchestration", "deployment", "automation", "infrastructure", "terraform",
      "ansible", "chef", "puppet", "aws", "azure", "gcp", "cloud", "microservice",
      "serverless", "lambda", "function-as-a-service", "iaas", "paas", "saas",
      "devops", "sre", "gitlab", "github actions", "circle ci"]),
    ("database",
     ["database", "sql", "nosql", "query", "index", "relational", "mongo",
      "postgresql", "mysql", "oracle", "sqlite", "join", "transaction", "acid",
      "normalization", "denormalization", "schema", "table", "column", "row",
      "primary key", "foreign key", "couchbase", "cassandra", "redis", "memcached"]),
    ("networking",
     ["network", "tcp/ip", "http", "https", "dns", "ip address", "subnet",
      "gateway", "routing", "firewall", "vpn", "proxy", "load balancer", "cdn",
      "latency", "bandwidth", "packet", "protocol", "socket", "port", "nat"]),
    ("security",
     ["security", "encryption", "authentication", "authorization", "oauth",
      "jwt", "certificate", "vulnerability", "exploit", "penetration test",
      "firewall", "csrf", "xss", "sql injection", "hash", "salt", "cipher"]),
    ("web-development",
     ["html", "css", "javascript", "dom", "react", "angular", "vue", "svelte",
      "webpack", "babel", "responsive", "spa", "pwa", "web component", "sass",
      "less", "bootstrap", "tailwind", "ajax", "fetch", "restful", "graphql",
      "browser", "render", "accessibility", "a11y", "cors", "frontend", "backend"]),
    ("mobile-development",
     ["android", "ios", "swift", "kotlin", "react native", "flutter", "mobile",
      "app store", "play store", "notification", "responsive", "touch", "gesture",
      "xcode", "android studio", "emulator", "simulator"]),
    ("data-science",
     ["data science", "machine learning", "statistics", "regression", "classification",
      "clustering", "neural network", "pandas", "numpy", "scipy", "matplotlib",
      "jupyter", "kaggle", "feature", "dataset", "model", "train", "test", "validate",
      "accuracy", "precision", "recall", "f1 score", "r squared", "visualization"]),
    ("artificial-intelligence",
     ["ai", "artificial intelligence", "machine learning", "deep learning", "neural network",
      "nlp", "natural language processing", "computer vision", "reinforcement learning",
      "supervised", "unsupervised", "tensorflow", "pytorch", "keras", "transformers",
      "gpt", "bert", "llm", "large language model", "embedding", "tokens", "fine-tuning",
      "prompt engineering", "rlhf", "diffusion model"]),
    ("general-technical",
     ["technical", "technology", "system", "architecture", "design pattern",
      "best practice", "implementation", "integration", "configuration", "setup",
      "install", "uninstall", "update", "upgrade", "downgrade", "compatibility",
      "performance", "optimization", "bottleneck", "scalability", "maintenance"]) ]

/-- The `questionPatterns` regular expressions of the source contain no
quantifiers or character classes apart from alternation groups and the final
`/\?$/`; each of the first nine patterns is therefore equivalent to a
substring test against this expansion of its alternations (the `i` flag is
irrelevant because the tested text is already lowercased). -/
def questionPatternSubstrings : List String :=
  ["how do i", "how can i", "how would i", "how should i",
   "how to", "how do you",
   "what is", "what are", "what does",
   "why does", "why is", "why are", "why do",
   "can you explain",
   "could you help", "could you tell", "could you explain", "could you describe",
   "difference between",
   "when should", "when would", "when do",
   "where can", "where should", "where do"]

/-- Embedding of `hasQuestionPattern`: some pattern matches, i.e. one of the
expanded alternation substrings occurs, or the text ends with a question
mark (`/\?$/`). -/
def hasQuestionPattern (text : String) : Bool :=
  questionPatternSubstrings.any (fun p => strContains text p) || strEnds text ("?")

/-- Word characters of the JS regex `\b` assertion (`[A-Za-z0-9_]`). -/
def isWordChar (c : Char) : Bool := c.isAlpha || c.isDigit || c = '_'

/-- Whether position `i` of the character list holds a word character
(out-of-range counts as non-word, as at the ends of a JS string). -/
def wordAt (textd : List Char) (i : Nat) : Bool :=
  match textd[i]? with
  | some c => isWordChar c
  | none => false

/-- The JS `\b` assertion at position `p`: the word-ness of the characters
on the two sides differs. -/
def boundaryAt (textd : List Char) (p : Nat) : Bool :=
  (if p = 0 then false else wordAt textd (p - 1)) != wordAt textd p

/-- Embedding of the test `new RegExp('\\b' + keyword + '\\b', 'i').test(text)`
of `findTechnicalKeywords` (keywords contain no regex metacharacters, so the
body is a literal; text and keywords are lowercase, so the `i` flag is
inert): the keyword occurs at some position with a `\b` boundary on both
sides. -/
def wbMatch (kw text : String) : Bool :=
  (List.range (text.data.length + 1)).any (fun p =>
    boundaryAt text.data p && kw.data.isPrefixOf (text.data.drop p) &&
      boundaryAt text.data (p + kw.data.length))

/-- Embedding of `findTechnicalKeywords`: scan every domain's keywords in
table order, collecting each matching keyword once. -/
def findTechnicalKeywords (text : String) : List String :=
  technicalKeywords.foldl
    (fun found d =>
      d.2.foldl
        (fun found kw =>
          if wbMatch kw text && !(found.contains kw) then found ++ [kw]
          else found)
        found)
    []

/-- Embedding of `determineTechnicalDomain`: zero keywords default to the
`General` domain with count `0`; otherwise count the matches per domain and
keep the first domain with a strictly maximal count, returning the total
number of matched keywords. -/
def determineTechnicalDomain (keywords : List String) : String × Nat :=
  if keywords.length = 0 then (("general-technical"), 0)
  else
    let domainCounts := technicalKeywords.map
      (fun d => (d.1, (keywords.filter (fun kw => d.2.contains (strLower kw))).length))
    let top := domainCounts.foldl
      (fun acc dc => if dc.2 > acc.2 then dc else acc) (("general-technical"), 0)
    (top.1, keywords.length)

/-- The numeric literals of `calculateConfidence` as exact fractions. -/
def js05 : JsNum := ⟨5, 10⟩

def js02 : JsNum := ⟨2, 10⟩

def js015 : JsNum := ⟨15, 100⟩

def js045 : JsNum := ⟨45, 100⟩

def js095 : JsNum := ⟨95, 100⟩

def js06 : JsNum := ⟨6, 10⟩

def js08 : JsNum := ⟨8, 10⟩

/-- Embedding of `calculateConfidence`: base `0.5` with a question pattern,
else `0.2`; when the text is non-empty add `min(keywordCount * 0.15, 0.45)`;
cap the result at `0.95`. -/
def calculateConfidence (isQuestionLike : Bool) (keywordCount : Nat) (textLength : Nat) : JsNum :=
  let confidence := if isQuestionLike then js05 else js02
  let confidence :=
    if 0 < textLength then
      JsNum.add confidence (JsNum.min (JsNum.mul (natToJs keywordCount) js015) js045)
    else confidence
  JsNum.min confidence js095

structure DetectionResult where
  isTechnical : Bool
  confidence : JsNum
  category : Option String
  detectedKeywords : List String
deriving DecidableEq

/-- Embedding of `detectTechnicalQuestion`. -/
def detectTechnicalQuestion (text : String) : DetectionResult :=
  let cleanText := strLower (strTrim text)
  let isQuestionLike := hasQuestionPattern cleanText
  let keywordMatches := findTechnicalKeywords cleanText
  let dt := determineTechnicalDomain keywordMatches
  let confidence := calculateConfidence isQuestionLike dt.2 cleanText.length
  let isTechnical := JsNum.blt js06 confidence
  { isTechnical := isTechnical
    confidence := confidence
    category := if isTechnical then some dt.1 else none
    detectedKeywords := keywordMatches }

structure TechnicalQuestion where
  id : String
  text : String
  timestamp : String
  category : Option String
  confidence : JsNum
deriving DecidableEq

/-- Decimal digit character, for the decimal rendering of a JS integer. -/
def decDigitChar (d : Nat) : Char :=
  match d with
  | 0 => '0' | 1 => '1' | 2 => '2' | 3 => '3' | 4 => '4'
  | 5 => '5' | 6 => '6' | 7 => '7' | 8 => '8' | _ => '9'

/-- Decimal digits of `n`, most significant first, with explicit fuel. -/
def natDecDigits (fuel n : Nat) : List Char :=
  match fuel with
  | 0 => []
  | fuel + 1 =>
    if n < 10 then [decDigitChar n]
    else natDecDigits fuel (n / 10) ++ [decDigitChar (n % 10)]

/-- Embedding of `Number.prototype.toString()` on the non-negative integers
produced by `Date.now()`. -/
def natDecRepr (n : Nat) : String := ⟨natDecDigits (n + 1) n⟩

/-- Embedding of `createTechnicalQuestion`.  The two clock reads of the
source are explicit inputs: `nowMs` is the value of `Date.now()` (the `id`
is its decimal rendering) and `timeDisplay` the human-readable
`toLocaleTimeString()` string. -/
def createTechnicalQuestion (text : String) (nowMs : Nat) (timeDisplay : String) :
    Option TechnicalQuestion :=
  let detectionResult := detectTechnicalQuestion text
  if !detectionResult.isTechnical then none
  else some
    { id := natDecRepr nowMs
      text := strTrim text
      timestamp := timeDisplay
      category := detectionResult.category
      confidence := detectionResult.confidence }

/-! ### VoiceUI: question extraction and the question registry

Embedding of the question-handling logic of the `VoiceUI` component
(`extractQuestions`, `mightBeConversationalQuery`, `areSimilarQuestions`,
`analyzeQuestion`, `clearQuestions`, `selectQuestion`).  The React state
pair `(detectedQuestions, currentQuestionIndex)` is modelled as an explicit
`VoiceState` value threaded through the handlers. -/

def conversationalPatterns : List String :=
  ["tell me", "explain", "describe", "show me", "help me",
   "i need", "i want", "give me", "can you", "please",
   "how do", "what is", "what are", "why is", "why are"]

/-- Embedding of `mightBeConversationalQuery` (the source lowercases, then
trims). -/
def mightBeConversationalQuery (text : String) : Bool :=
  conversationalPatterns.any (fun p => strContains (strTrim (strLower text)) p)

def questionIndicators : List String :=
  ["how", "what", "why", "when", "where", "which", "who", "whose", "whom",
   "can", "could", "would", "should", "is", "are", "am", "was", "were",
   "do", "does", "did", "has", "have", "had", "will", "shall",
   "tell me", "explain", "describe", "show me", "help me understand"]

/-- Sentence-terminating punctuation of the split regex `/[.!?]+/`. -/
def isSentencePunct (c : Char) : Bool := c = '.' || c = '!' || c = '?'

/-- Helper splitting on every single punctuation character.  The source
splits on *runs* (`[.!?]+`); runs additionally produce empty pieces here,
but both are immediately filtered by the same `trim().length > 0` test, so
the filtered results coincide. -/
def splitPunctAux : List Char → List Char → List String
  | [], acc => [⟨acc.reverse⟩]
  | c :: rest, acc =>
    if isSentencePunct c then ⟨acc.reverse⟩ :: splitPunctAux rest []
    else splitPunctAux rest (c :: acc)

def splitPunct (s : String) : List String := splitPunctAux s.data []

/-- Embedding of `extractQuestions`. -/
def extractQuestions (text : String) : List String :=
  let sentences := (splitPunct text).filter (fun s => 0 < (strTrim s).length)
  let result := sentences.foldl
    (fun result sentence =>
      let trimmed := strTrim sentence
      if trimmed.length < 3 then result
      else if strContains text (trimmed ++ ("?")) then result ++ [trimmed ++ ("?")]
      else
        let lowerSentence := strLower trimmed
        if questionIndicators.any (fun indicator =>
            strStarts lowerSentence indicator ||
              strContains lowerSentence ((" ") ++ indicator ++ (" ")))
        then result ++ [trimmed]
        else result)
    []
  if result.length = 0 && 0 < (strTrim text).length && (strTrim text).length < 150
  then [strTrim text]
  else result

/-- Embedding of `areSimilarQuestions`: similarity strictly above the `0.8`
threshold. -/
def areSimilarQuestions (q1 q2 : String) : Bool :=
  JsNum.blt js08 (calculateSimilarity q1 q2)

/-- The question-registry slice of the component state:
`detectedQuestions` and `currentQuestionIndex` (`-1` meaning none). -/
structure VoiceState where
  detectedQuestions : List TechnicalQuestion
  currentQuestionIndex : Int
deriving DecidableEq

def initialVoiceState : VoiceState := ⟨[], -1⟩

/-- Embedding of `analyzeQuestion`: build a `TechnicalQuestion` from the
candidate text (no-op when the detector rejects it), reject it as a
duplicate when a similar question is already listed, otherwise append it
and select it (`newQuestions.length - 1`). -/
def analyzeQuestion (st : VoiceState) (questionText : String) (nowMs : Nat)
    (timeDisplay : String) : VoiceState :=
  match createTechnicalQuestion questionText nowMs timeDisplay with
  | none => st
  | some question =>
    if st.detectedQuestions.any (fun q => areSimilarQuestions q.text question.text) then st
    else
      { detectedQuestions := st.detectedQuestions ++ [question]
        currentQuestionIndex := Int.ofNat st.detectedQuestions.length }

/-- Embedding of `clearQuestions`. -/
def clearQuestions (st : VoiceState) : VoiceState :=
  { st with detectedQuestions := [], currentQuestionIndex := -1 }

/-- Embedding of `selectQuestion`. -/
def selectQuestion (st : VoiceState) (index : Int) : VoiceState :=
  { st with currentQuestionIndex := index }

/-- The registry-facing events of the component, for stating reachability
invariants: a question insertion attempt (with its clock inputs), a
clear-questions click, and a selection click. -/
inductive UIOp where
  | analyze (text : String) (nowMs : Nat) (timeDisplay : String)
  | clearQs
  | select (index : Int)

def applyUIOp (st : VoiceState) : UIOp → VoiceState
  | .analyze t n d => analyzeQuestion st t n d
  | .clearQs => clearQuestions st
  | .select i => selectQuestion st i

def runUI (ops : List UIOp) : VoiceState := ops.foldl applyUIOp initialVoiceState

/-! ### OpenAIService

Embedding of `src/services/OpenAIService.ts` (with the option handling of
`src/services/LLMService.ts`).  The `fetch` response is an explicit input
(`HttpResponse`): its status, its full body text (read by the
non-streaming path and by the error path) and the list of decoded chunks
delivered by the body reader (read by the streaming path).  Calls to the
`onStreamUpdate` callback are collected in order into a notification list.

`JSON.parse` is a platform builtin; it is embedded below as a
recursive-descent parser of the JSON grammar (objects, arrays, strings
with the standard escapes, numbers kept as lexemes, `true`/`false`/`null`),
with `none` modelling a thrown `SyntaxError`. -/

def braceL : Char := Char.ofNat 123

def braceR : Char := Char.ofNat 125

inductive Jx where
  | jnull
  | jbool (b : Bool)
  | jnum (lexeme : String)
  | jstr (s : String)
  | jarr (items : List Jx)
  | jobj (fields : List (String × Jx))

def isJsonWs (c : Char) : Bool := c = ' ' || c = '\t' || c = '\n' || c = '\r'

def skipWs (cs : List Char) : List Char := cs.dropWhile isJsonWs

def hexDigitVal (c : Char) : Option Nat :=
  if c.isDigit then some (c.toNat - 48)
  else if 'a' ≤ c && c ≤ 'f' then some (c.toNat - 87)
  else if 'A' ≤ c && c ≤ 'F' then some (c.toNat - 55)
  else none

/-- JSON string body parser (the opening quote is already consumed),
accumulating characters in reverse.  Handles the standard escapes;
`\uXXXX` is decoded to the code point (lone surrogates, which cannot occur
in the analysed inputs, are not paired). -/
def parseJStr : List Char → List Char → Option (String × List Char)
  | [], _ => none
  | '"' :: rest, acc => some (⟨acc.reverse⟩, rest)
  | '\\' :: 'u' :: h1 :: h2 :: h3 :: h4 :: rest, acc =>
    (match hexDigitVal h1, hexDigitVal h2, hexDigitVal h3, hexDigitVal h4 with
     | some a, some b, some c, some d =>
       parseJStr rest (Char.ofNat (((a * 16 + b) * 16 + c) * 16 + d) :: acc)
     | _, _, _, _ => none)
  | '\\' :: e :: rest, acc =>
    (match e with
     | '"' => parseJStr rest ('"' :: acc)
     | '\\' => parseJStr rest ('\\' :: acc)
     | '/' => parseJStr rest ('/' :: acc)
     | 'b' => parseJStr rest (Char.ofNat 8 :: acc)
     | 'f' => parseJStr rest (Char.ofNat 12 :: acc)
     | 'n' => parseJStr rest ('\n' :: acc)
     | 'r' => parseJStr rest ('\r' :: acc)
     | 't' => parseJStr rest ('\t' :: acc)
     | _ => none)
  | c :: rest, acc => parseJStr rest (c :: acc)

def isNumChar (c : Char) : Bool :=
  c.isDigit || c = '-' || c = '+' || c = '.' || c = 'e' || c = 'E'

mutual

def parseVal : Nat → List Char → Option (Jx × List Char)
  | 0, _ => none
  | fuel + 1, cs =>
    match skipWs cs with
    | [] => none
    | '"' :: rest =>
      (match parseJStr rest [] with
       | some (s, rest') => some (.jstr s, rest')
       | none => none)
    | 'n' :: 'u' :: 'l' :: 'l' :: rest => some (.jnull, rest)
    | 't' :: 'r' :: 'u' :: 'e' :: rest => some (.jbool true, rest)
    | 'f' :: 'a' :: 'l' :: 's' :: 'e' :: rest => some (.jbool false, rest)
    | '[' :: rest =>
      (match skipWs rest with
       | ']' :: rest' => some (.jarr [], rest')
       | cs' => parseArrItems fuel cs' [])
    | c :: rest =>
      if c = braceL then
        match skipWs rest with
        | [] => none
        | c' :: rest' =>
          if c' = braceR then some (.jobj [], rest')
          else parseObjItems fuel (c' :: rest') []
      else if c = '-' || c.isDigit then
        some (.jnum ⟨(c :: rest).takeWhile isNumChar⟩, (c :: rest).dropWhile isNumChar)
      else none

def parseArrItems : Nat → List Char → List Jx → Option (Jx × List Char)
  | 0, _, _ => none
  | fuel + 1, cs, acc =>
    match parseVal fuel cs with
    | some (v, rest) =>
      (match skipWs rest with
       | ',' :: rest' => parseArrItems fuel rest' (acc ++ [v])
       | ']' :: rest' => some (.jarr (acc ++ [v]), rest')
       | _ => none)
    | none => none

def parseObjItems : Nat → List Char → List (String × Jx) → Option (Jx × List Char)
  | 0, _, _ => none
  | fuel + 1, cs, acc =>
    match skipWs cs with
    | '"' :: rest =>
      (match parseJStr rest [] with
       | some (k, rest') =>
         (match skipWs rest' with
          | ':' :: rest'' =>
            (match parseVal fuel rest'' with
             | some (v, rest3) =>
               (match skipWs rest3 with
                | ',' :: rest4 => parseObjItems fuel rest4 (acc ++ [(k, v)])
                | c :: rest4 =>
                  if c = braceR then some (.jobj (acc ++ [(k, v)]), rest4) else none
                | [] => none)
             | none => none)
          | _ => none)
       | none => none)
    | _ => none

end

/-- Embedding of `JSON.parse`: parse one value, allow trailing whitespace
only.  The fuel (one per nesting step or collection item) is amply covered
by the input length. -/
def parseJson (s : String) : Option Jx :=
  match parseVal (s.data.length + 1) s.data with
  | some (j, rest) => if skipWs rest = [] then some j else none
  | none => none

/-- Property lookup on a parsed JSON object: `JSON.parse` keeps the last
occurrence of a duplicated key. -/
def jlookup : List (String × Jx) → String → Option Jx
  | [], _ => none
  | (k', v) :: rest, k =>
    match jlookup rest k with
    | some r => some r
    | none => if k' = k then some v else none

/-- Embedding of `data.choices[0]?.delta?.content || ''` on a parsed stream
chunk.  `none` models a thrown `TypeError` (`choices` missing or `null`:
indexing throws), which the loop catches and skips; `some ""` models every
path on which the chain or the `|| ''` produces the empty string (absent
index, absent `delta` or `content`, non-string content, which does not
occur on this wire format). -/
def contentOf (j : Jx) : Option String :=
  match j with
  | .jobj fields =>
    (match jlookup fields ("choices") with
     | some (.jarr (c :: _)) =>
       (match c with
        | .jobj cf =>
          (match jlookup cf ("delta") with
           | some (.jobj df) =>
             (match jlookup df ("content") with
              | some (.jstr s) => some s
              | _ => some (("")))
           | _ => some (("")))
        | _ => some (("")))
     | some (.jarr []) => some ((""))
     | some .jnull => none
     | some _ => some ((""))
     | none => none)
  | _ => none

/-- Embedding of `response.choices[0]?.message?.content || 'No answer
received'` of the non-streaming path; `none` models a thrown `TypeError`. -/
def answerOf (j : Jx) : Option String :=
  match j with
  | .jobj fields =>
    (match jlookup fields ("choices") with
     | some (.jarr (c :: _)) =>
       (match c with
        | .jobj cf =>
          (match jlookup cf ("message") with
           | some (.jobj mf) =>
             (match jlookup mf ("content") with
              | some (.jstr s) =>
                if s = "" then some (("No answer received")) else some s
              | _ => some (("No answer received")))
           | _ => some (("No answer received")))
        | _ => some (("No answer received")))
     | some (.jarr []) => some (("No answer received"))
     | some .jnull => none
     | some _ => some (("No answer received"))
     | none => none)
  | _ => none

def dataTag : String := "data: "

def doneTag : String := "data: [DONE]"

def doneStr : String := "[DONE]"

def emptyStr : String := ""

/-- Embedding of the per-chunk line splitting and filtering of
`streamResponse`: split on newlines, drop blank lines and exact
`data: [DONE]` lines. -/
def chunkLines (chunk : String) : List String :=
  (strSplitChar chunk '\n').filter
    (fun line => !(strTrim line == emptyStr) && !(strTrim line == doneTag))

/-- Embedding of the body of the line loop of `streamResponse`: the
nonempty content delta a line contributes, if any.  Lines without the
`data: ` marker, `[DONE]` payloads, unparsable payloads (the catch arm)
and empty contents (`if (content)`) contribute nothing. -/
def streamDelta (line : String) : Option String :=
  if strStarts line dataTag then
    let jsonStr := strDropN line 6
    if jsonStr == doneStr then none
    else
      match parseJson jsonStr with
      | some data =>
        (match contentOf data with
         | some content => if content == emptyStr then none else some content
         | none => none)
      | none => none
  else none

/-- One line of the loop acting on the state `(fullAnswer, notifications)`:
on a contributing line, append the delta and notify with the full buffer. -/
def procLine (st : String × List String) (line : String) : String × List String :=
  match streamDelta line with
  | some content => (st.1 ++ content, st.2 ++ [st.1 ++ content])
  | none => st

/-- The full reader loop of `streamResponse` over the decoded chunks,
started on the empty buffer; the loop ends at end-of-stream (`done`). -/
def streamLoop (chunks : List String) : String × List String :=
  chunks.foldl (fun st chunk => (chunkLines chunk).foldl procLine st) (emptyStr, [])

/-- All deltas a chunk list contributes, in order (specification device for
relating notifications to the accumulated buffer). -/
def chunkDeltas (chunks : List String) : List String :=
  (chunks.map chunkLines).flatten.filterMap streamDelta

/-- Buffer snapshots after each delta, starting from `buf` (specification
device). -/
def accumNotifs (buf : String) : List String → List String
  | [] => []
  | d :: ds => (buf ++ d) :: accumNotifs (buf ++ d) ds

structure HttpResponse where
  status : Nat
  bodyText : String
  chunks : List String
deriving DecidableEq

/-- Embedding of `Response.ok`: status in the 2xx range. -/
def respOk (r : HttpResponse) : Bool := 200 ≤ r.status && r.status ≤ 299

structure LLMResult where
  answer : String
  source : String
deriving DecidableEq

/-- Embedding of `streamResponse`: on a non-OK status throw
`API error: <status> - <body>` before reading the stream (so no
notification is emitted); otherwise run the reader loop and return the
accumulated buffer with source `openai-stream`.  The returned pair is
(notifications, outcome). -/
def streamResponse (resp : HttpResponse) : List String × Except String LLMResult :=
  if !respOk resp then
    ([], .error ((("API error: ")) ++ natDecRepr resp.status ++ ((" - ")) ++ resp.bodyText))
  else
    let r := streamLoop resp.chunks
    (r.2, .ok { answer := r.1, source := ("openai-stream") })

/-- Embedding of `standardResponse`: on a non-OK status throw the same
`API error` message; otherwise parse the whole body as one JSON document
and extract the first choice's message content (engine-specific messages
stand in for the `JSON.parse` / property-access exception texts). -/
def standardResponse (resp : HttpResponse) : Except String LLMResult :=
  if !respOk resp then
    .error ((("API error: ")) ++ natDecRepr resp.status ++ ((" - ")) ++ resp.bodyText)
  else
    match parseJson resp.bodyText with
    | none => .error (("unexpected token in JSON"))
    | some data =>
      match answerOf data with
      | none => .error (("cannot read properties of response"))
      | some answer => .ok { answer := answer, source := ("openai") }

/-- The resolved options of the service (after the constructor defaults of
`LLMService`/`OpenAIService` are merged); the `onStreamUpdate` callback is
modelled by its presence. -/
structure ServiceOptions where
  model : String
  maxTokens : Nat
  temperature : JsNum
  stream : Bool
  hasOnStreamUpdate : Bool
deriving DecidableEq

def systemPromptText : String :=
  "Explain like I'm in a job interview—simple and practical. Answer like you're a programmer talking to another programmer—fast and clear. Keep it short and beginner-friendly, with an example. Give me the 'what it is' and 'why it matters' in one or two sentences"

/-- The JSON body of the outgoing POST request built by `getAnswer`:
model, the fixed system message and the user question, `max_tokens`,
`temperature` and the `stream` flag taken from the options. -/
structure ChatRequest where
  model : String
  systemContent : String
  userContent : String
  maxTokens : Nat
  temperature : JsNum
  stream : Bool
deriving DecidableEq

def mkChatRequest (opts : ServiceOptions) (question : String) : ChatRequest :=
  { model := opts.model
    systemContent := systemPromptText
    userContent := question
    maxTokens := opts.maxTokens
    temperature := opts.temperature
    stream := opts.stream }

/-- Everything observable about one `getAnswer` call: the request body it
sent, which consumption path it took, the partial-answer notifications it
emitted, and its terminal outcome. -/
structure AnswerOutcome where
  request : ChatRequest
  usedStreamingPath : Bool
  notifications : List String
  result : Except String LLMResult

/-- Embedding of the catch arm of `getAnswer`, which rethrows
`Failed to get answer: <message>`. -/
def wrapGetAnswerErr : Except String LLMResult → Except String LLMResult
  | .ok r => .ok r
  | .error e => .error ((("Failed to get answer: ")) ++ e)

/-- Embedding of `getAnswer`: build the request body, take the streaming
path only when both the `stream` option and the `onStreamUpdate` callback
are set, otherwise the standard path. -/
def getAnswer (opts : ServiceOptions) (question : String) (resp : HttpResponse) :
    AnswerOutcome :=
  let request := mkChatRequest opts question
  if opts.stream && opts.hasOnStreamUpdate then
    let r := streamResponse resp
    { request := request
      usedStreamingPath := true
      notifications := r.1
      result := wrapGetAnswerErr r.2 }
  else
    { request := request
      usedStreamingPath := false
      notifications := []
      result := wrapGetAnswerErr (standardResponse resp) }

/-! ### General lemmas about the helper functions -/

theorem strJoin_foldl (l : List String) :
    ∀ init : String, l.foldl (fun r s => r ++ s) init = init ++ String.join l := by
  induction l with
  | nil =>
    intro init
    show init = init ++ String.join []
    rw [show String.join [] = ("") from rfl, String.append_empty]
  | cons s l ih =>
    intro init
    show l.foldl (fun r s => r ++ s) (init ++ s) = init ++ String.join (s :: l)
    rw [ih (init ++ s)]
    have hj : String.join (s :: l) = s ++ String.join l := by
      show l.foldl (fun r s => r ++ s) ((("")) ++ s) = s ++ String.join l
      rw [ih ((("")) ++ s), String.empty_append]
    rw [hj, String.append_assoc]

theorem strJoin_cons (s : String) (l : List String) :
    String.join (s :: l) = s ++ String.join l := by
  show l.foldl (fun r s => r ++ s) ((("")) ++ s) = s ++ String.join l
  rw [strJoin_foldl l ((("")) ++ s), String.empty_append]

/-- Occurrence of the middle component of a three-part concatenation. -/
theorem strContains_append_middle (a b c : String) :
    strContains (a ++ b ++ c) b = true := by
  unfold strContains
  rw [List.any_eq_true]
  refine ⟨a.data.length, ?_, ?_⟩
  · rw [List.mem_range]
    simp only [String.data_append, List.length_append]
    omega
  · have hd : (a ++ b ++ c).data = a.data ++ (b.data ++ c.data) := by
      simp [String.data_append]
    rw [hd, List.drop_left]
    rw [List.isPrefixOf_iff_prefix]
    exact List.prefix_append b.data c.data

/-- The second component of `determineTechnicalDomain` is always the number
of matched keywords. -/
theorem determineTechnicalDomain_snd (kws : List String) :
    (determineTechnicalDomain kws).2 = kws.length := by
  unfold determineTechnicalDomain
  by_cases h : kws.length = 0 <;> simp [h]

/-- A string of length zero is the empty string. -/
theorem strLength_zero (s : String) (h : s.length = 0) : s = ⟨[]⟩ := by
  cases s with
  | mk data =>
    have : data.length = 0 := h
    rw [List.length_eq_zero] at this
    rw [this]

/-! ### Claim theorems -/

/-- C8: `similarity` is symmetric: for every pair of strings `a` and `b`,
`similarity(a, b)` equals `similarity(b, a)`. -/
theorem similarity_symmetric (a b : String) :
    calculateSimilarity a b = calculateSimilarity b a :=
  calculateSimilarity_comm a b

/-- C1 counterexample: `extract` applied to the utterance
`"I need help with docker. What is kubernetes?"` does not return the two
claimed candidates; the first sentence matches no question indicator of
`extractQuestions` (the `"i need"`/`"help me"` family belongs to the
separate conversational-query check). -/
theorem extract_two_candidates_counterexample :
    extractQuestions ("I need help with docker. What is kubernetes?")
      ≠ [("I need help with docker"), ("What is kubernetes?")] := by
  decide

/-- C1 amended: `extract` applied to the utterance
`"I need help with docker. What is kubernetes?"` returns exactly one
candidate, `"What is kubernetes?"`; the sentence
`"I need help with docker"` is not emitted. -/
theorem extract_one_candidate :
    extractQuestions ("I need help with docker. What is kubernetes?")
      = [("What is kubernetes?")] := by
  decide

/-- C6 counterexample: `select(5)` on the empty registry (where `5` is out
of range) is not a no-op: it sets the selected-question pointer to `5`. -/
theorem select_out_of_range_counterexample :
    ¬ (0 ≤ (5 : Int) ∧ (5 : Int) < (initialVoiceState.detectedQuestions.length : Int))
      ∧ selectQuestion initialVoiceState 5 ≠ initialVoiceState := by
  decide

/-- C6 amended: for every registry state and every integer index,
`select(index)` sets the selected-question pointer to `index`
unconditionally (no range check is performed) and leaves the question list
unchanged. -/
theorem select_sets_index_unconditionally (st : VoiceState) (index : Int) :
    (selectQuestion st index).currentQuestionIndex = index ∧
      (selectQuestion st index).detectedQuestions = st.detectedQuestions :=
  ⟨rfl, rfl⟩

/-- C2: for every input text, `classify`'s confidence equals
`min(base + min(matchedKeywordCount * 0.15, 0.45), 0.95)` with base `0.5`
when a question pattern matches and `0.2` otherwise; `isTechnical` holds
iff the confidence is strictly greater than `0.6`; and `category` is
present iff `isTechnical` is true.  (The fractions are written as exact
pairs: `js05 = 0.5`, `js02 = 0.2`, `js015 = 0.15`, `js045 = 0.45`,
`js095 = 0.95`, `js06 = 0.6`.) -/
theorem classify_confidence_formula (text : String) :
    JsNum.eqv (detectTechnicalQuestion text).confidence
      (JsNum.min
        (JsNum.add
          (if hasQuestionPattern (strLower (strTrim text)) then js05 else js02)
          (JsNum.min
            (JsNum.mul (natToJs (detectTechnicalQuestion text).detectedKeywords.length) js015)
            js045))
        js095)
    ∧ ((detectTechnicalQuestion text).isTechnical = true ↔
        JsNum.lt js06 (detectTechnicalQuestion text).confidence)
    ∧ ((detectTechnicalQuestion text).category.isSome
        = (detectTechnicalQuestion text).isTechnical) := by
  refine ⟨?_, ?_, ?_⟩
  · simp only [detectTechnicalQuestion, determineTechnicalDomain_snd]
    by_cases hlen : 0 < (strLower (strTrim text)).length
    · simp only [calculateConfidence, if_pos hlen]
      exact rfl
    · have hempty : strLower (strTrim text) = ⟨[]⟩ :=
        strLength_zero _ (by omega)
      rw [hempty]
      decide
  · simp only [detectTechnicalQuestion, JsNum.blt]
    exact ⟨of_decide_eq_true, decide_eq_true⟩
  · simp only [detectTechnicalQuestion]
    cases hb : JsNum.blt js06
        (calculateConfidence (hasQuestionPattern (strLower (strTrim text)))
          (determineTechnicalDomain
            (findTechnicalKeywords (strLower (strTrim text)))).2
          (strLower (strTrim text)).length) <;>
      simp [hb]

/-! ### Registry invariants (C4, C9) -/

/-- Inversion of a successful `createTechnicalQuestion`: the produced
question carries the decimal clock tag as `id` and the trimmed candidate
as `text`. -/
theorem createTechnicalQuestion_inv {text : String} {nowMs : Nat} {timeDisplay : String}
    {q : TechnicalQuestion} (h : createTechnicalQuestion text nowMs timeDisplay = some q) :
    q.id = natDecRepr nowMs ∧ q.text = strTrim text := by
  simp only [createTechnicalQuestion] at h
  cases hbool : (detectTechnicalQuestion text).isTechnical with
  | false => rw [hbool] at h; simp at h
  | true =>
    rw [hbool] at h
    simp at h
    rw [← h]
    exact ⟨rfl, rfl⟩

/-- `analyzeQuestion` is a no-op when the detector rejects the candidate. -/
theorem analyzeQuestion_none (st : VoiceState) {t : String} {n : Nat} {d : String}
    (hc : createTechnicalQuestion t n d = none) : analyzeQuestion st t n d = st := by
  unfold analyzeQuestion
  rw [hc]

/-- `analyzeQuestion` is a no-op when a similar question is already listed. -/
theorem analyzeQuestion_dup (st : VoiceState) {t : String} {n : Nat} {d : String}
    {q : TechnicalQuestion} (hc : createTechnicalQuestion t n d = some q)
    (hany : st.detectedQuestions.any (fun p => areSimilarQuestions p.text q.text) = true) :
    analyzeQuestion st t n d = st := by
  unfold analyzeQuestion
  rw [hc]
  simp only [hany, if_true]

/-- `analyzeQuestion` appends the new question and selects it when the
detector accepts it and no similar question is listed. -/
theorem analyzeQuestion_accept (st : VoiceState) {t : String} {n : Nat} {d : String}
    {q : TechnicalQuestion} (hc : createTechnicalQuestion t n d = some q)
    (hany : st.detectedQuestions.any (fun p => areSimilarQuestions p.text q.text) = false) :
    analyzeQuestion st t n d
      = { detectedQuestions := st.detectedQuestions ++ [q]
          currentQuestionIndex := Int.ofNat st.detectedQuestions.length } := by
  unfold analyzeQuestion
  rw [hc]
  simp only [hany, Bool.false_eq_true, if_false]

/-- Both directions of the dissimilarity bound between two registry
entries: each has similarity at most `0.8` (`js08`) with the other. -/
def simBoundRel (p q : TechnicalQuestion) : Prop :=
  JsNum.le (calculateSimilarity p.text q.text) js08 ∧
    JsNum.le (calculateSimilarity q.text p.text) js08

theorem applyUIOp_preserves_pairwise (st : VoiceState) (op : UIOp)
    (h : st.detectedQuestions.Pairwise simBoundRel) :
    ((applyUIOp st op).detectedQuestions).Pairwise simBoundRel := by
  cases op with
  | select i => exact h
  | clearQs => simp [applyUIOp, clearQuestions]
  | analyze t n d =>
    show (analyzeQuestion st t n d).detectedQuestions.Pairwise simBoundRel
    unfold analyzeQuestion
    cases hc : createTechnicalQuestion t n d with
    | none => exact h
    | some q =>
      by_cases hany :
          st.detectedQuestions.any (fun p => areSimilarQuestions p.text q.text) = true
      · simp only [hany, if_true]
        exact h
      · have hfalse : st.detectedQuestions.any
            (fun p => areSimilarQuestions p.text q.text) = false :=
          Bool.eq_false_iff.mpr hany
        simp only [hfalse, Bool.false_eq_true, if_false]
        rw [List.pairwise_append]
        refine ⟨h, List.pairwise_singleton _ _, ?_⟩
        intro p hp q' hq'
        rw [List.mem_singleton] at hq'
        rw [hq']
        have hnot : areSimilarQuestions p.text q.text = false :=
          Bool.eq_false_iff.mpr (List.any_eq_false.mp hfalse p hp)
        have hnlt : ¬ JsNum.lt js08 (calculateSimilarity p.text q.text) := by
          simpa [areSimilarQuestions, JsNum.blt] using hnot
        constructor
        · simp only [JsNum.lt, JsNum.le, js08] at hnlt ⊢
          omega
        · rw [calculateSimilarity_comm q.text p.text]
          simp only [JsNum.lt, JsNum.le, js08] at hnlt ⊢
          omega

theorem runUI_pairwise (ops : List UIOp) :
    (runUI ops).detectedQuestions.Pairwise simBoundRel := by
  suffices h : ∀ st, st.detectedQuestions.Pairwise simBoundRel →
      (ops.foldl applyUIOp st).detectedQuestions.Pairwise simBoundRel from
    h initialVoiceState (by simp [initialVoiceState])
  induction ops with
  | nil => intro st h; exact h
  | cons op ops ih => intro st h; exact ih _ (applyUIOp_preserves_pairwise st op h)

/-- C4: after any sequence of question insertions, clears and selections,
every pair of distinct live entries in the question registry has similarity
at most `0.8` (`js08`), in both argument orders; and an insertion whose
candidate text (as inserted, i.e. trimmed) has similarity strictly greater
than `0.8` with some existing entry leaves the state unchanged. -/
theorem registry_pairwise_dissimilar :
    (∀ ops : List UIOp, (runUI ops).detectedQuestions.Pairwise simBoundRel)
    ∧ ∀ (st : VoiceState) (text : String) (nowMs : Nat) (timeDisplay : String),
        (∃ p ∈ st.detectedQuestions,
          JsNum.lt js08 (calculateSimilarity p.text (strTrim text))) →
        analyzeQuestion st text nowMs timeDisplay = st := by
  refine ⟨runUI_pairwise, ?_⟩
  intro st text nowMs timeDisplay hex
  unfold analyzeQuestion
  cases hc : createTechnicalQuestion text nowMs timeDisplay with
  | none => rfl
  | some q =>
    have hqt : q.text = strTrim text := (createTechnicalQuestion_inv hc).2
    have hany : st.detectedQuestions.any
        (fun p => areSimilarQuestions p.text q.text) = true := by
      rw [List.any_eq_true]
      obtain ⟨p, hp, hlt⟩ := hex
      refine ⟨p, hp, ?_⟩
      rw [hqt]
      simp only [areSimilarQuestions, JsNum.blt]
      exact decide_eq_true hlt
    simp only [hany, if_true]

/-- C4 witness: a registry holding `"what is docker"`, then a second
insertion attempt of the same text (similarity `1 > 0.8`), which is
rejected without mutation; the pairwise bound holds for the reachable
state. -/
theorem registry_pairwise_dissimilar_witness :
    (runUI [UIOp.analyze (("what is docker")) 0 (("t"))]).detectedQuestions.Pairwise
        simBoundRel
    ∧ analyzeQuestion (runUI [UIOp.analyze (("what is docker")) 0 (("t"))])
        (("what is docker")) 1 (("t"))
      = runUI [UIOp.analyze (("what is docker")) 0 (("t"))] := by
  constructor
  · exact registry_pairwise_dissimilar.1 [UIOp.analyze (("what is docker")) 0 (("t"))]
  · apply registry_pairwise_dissimilar.2
    refine ⟨{ id := ("0"), text := ("what is docker"), timestamp := ("t"),
              category := some ("devops"), confidence := ⟨650, 1000⟩ }, ?_, ?_⟩
    · decide
    · decide

/-- The `Date.now()` values of the insertion attempts in an event list. -/
def opsTimes : List UIOp → List Nat
  | [] => []
  | UIOp.analyze _ n _ :: rest => n :: opsTimes rest
  | _ :: rest => opsTimes rest

/-- Value of a digit character produced by `decDigitChar`. -/
def decDigitsVal (cs : List Char) : Nat :=
  cs.foldl (fun a c => a * 10 + (c.toNat - 48)) 0

theorem decDigitChar_val (m : Nat) (h : m < 10) : (decDigitChar m).toNat - 48 = m := by
  interval_cases m <;> rfl

theorem natDecDigits_val : ∀ fuel n, n < fuel → decDigitsVal (natDecDigits fuel n) = n := by
  intro fuel
  induction fuel with
  | zero => intro n h; omega
  | succ fuel ih =>
    intro n h
    rw [natDecDigits]
    by_cases h10 : n < 10
    · rw [if_pos h10]
      have hv : decDigitsVal [decDigitChar n] = (decDigitChar n).toNat - 48 := by
        simp [decDigitsVal]
      rw [hv, decDigitChar_val n h10]
    · rw [if_neg h10]
      have hdiv : n / 10 < fuel := by omega
      have hval : decDigitsVal (natDecDigits fuel (n / 10) ++ [decDigitChar (n % 10)])
          = decDigitsVal (natDecDigits fuel (n / 10)) * 10
            + ((decDigitChar (n % 10)).toNat - 48) := by
        simp [decDigitsVal, List.foldl_append]
      rw [hval, ih (n / 10) hdiv, decDigitChar_val (n % 10) (by omega)]
      omega

theorem natDecRepr_injective : Function.Injective natDecRepr := by
  intro m n h
  have hd : natDecDigits (m + 1) m = natDecDigits (n + 1) n := congrArg String.data h
  have hv := congrArg decDigitsVal hd
  rwa [natDecDigits_val (m + 1) m (by omega), natDecDigits_val (n + 1) n (by omega)] at hv

theorem foldl_ids_sublist :
    ∀ (ops : List UIOp) (st : VoiceState),
      ((ops.foldl applyUIOp st).detectedQuestions.map TechnicalQuestion.id).Sublist
        (st.detectedQuestions.map TechnicalQuestion.id
          ++ (opsTimes ops).map natDecRepr) := by
  intro ops
  induction ops with
  | nil => intro st; simp
  | cons op ops ih =>
    intro st
    cases op with
    | select i => exact ih (applyUIOp st (UIOp.select i))
    | clearQs =>
      have h := ih (applyUIOp st UIOp.clearQs)
      exact h.trans
        ((List.nil_sublist (st.detectedQuestions.map TechnicalQuestion.id)).append
          (List.Sublist.refl _))
    | analyze t n d =>
      show List.Sublist
        ((ops.foldl applyUIOp (analyzeQuestion st t n d)).detectedQuestions.map
          TechnicalQuestion.id)
        (st.detectedQuestions.map TechnicalQuestion.id
          ++ (natDecRepr n :: (opsTimes ops).map natDecRepr))
      cases hc : createTechnicalQuestion t n d with
      | none =>
        rw [analyzeQuestion_none st hc]
        exact (ih st).trans ((List.Sublist.refl _).append (List.sublist_cons_self _ _))
      | some q =>
        by_cases hany :
            st.detectedQuestions.any (fun p => areSimilarQuestions p.text q.text) = true
        · rw [analyzeQuestion_dup st hc hany]
          exact (ih st).trans ((List.Sublist.refl _).append (List.sublist_cons_self _ _))
        · have hfalse : st.detectedQuestions.any
              (fun p => areSimilarQuestions p.text q.text) = false :=
            Bool.eq_false_iff.mpr hany
          rw [analyzeQuestion_accept st hc hfalse]
          have h := ih
            { detectedQuestions := st.detectedQuestions ++ [q]
              currentQuestionIndex := Int.ofNat st.detectedQuestions.length }
          have hside :
              ({ detectedQuestions := st.detectedQuestions ++ [q],
                 currentQuestionIndex :=
                   Int.ofNat st.detectedQuestions.length } : VoiceState).detectedQuestions
              = st.detectedQuestions ++ [q] := rfl
          rw [hside, List.map_append] at h
          have hqid : q.id = natDecRepr n := (createTechnicalQuestion_inv hc).1
          have heq : (st.detectedQuestions.map TechnicalQuestion.id
                ++ [q].map TechnicalQuestion.id)
              ++ (opsTimes ops).map natDecRepr
              = st.detectedQuestions.map TechnicalQuestion.id
                ++ (natDecRepr n :: (opsTimes ops).map natDecRepr) := by
            rw [List.append_assoc]
            simp [hqid]
          rw [heq] at h
          exact h

/-- C9 counterexample: two accepted insertions that share the capture time
`0` produce two distinct live entries whose `id` strings are both `"0"` —
the registry holds duplicate ids. -/
theorem question_ids_collision_counterexample :
    ((runUI [UIOp.analyze (("what is docker")) 0 (("t1")),
             UIOp.analyze (("what is kubernetes")) 0 (("t2"))]).detectedQuestions.map
        TechnicalQuestion.id)
      = [("0"), ("0")]
    ∧ ¬ ([("0"), ("0")] : List String).Nodup := by
  decide

/-- C9 amended: for every sequence of operations whose insertion attempts
carry pairwise distinct capture times, any two distinct live entries in
the registry have distinct `id` values. -/
theorem question_ids_distinct (ops : List UIOp) (h : (opsTimes ops).Nodup) :
    ((runUI ops).detectedQuestions.map TechnicalQuestion.id).Nodup :=
  (h.map natDecRepr_injective).sublist (foldl_ids_sublist ops initialVoiceState)

/-- C9 witness: two insertions at the distinct times `0` and `1` yield a
registry whose entry ids are pairwise distinct. -/
theorem question_ids_distinct_witness :
    (opsTimes [UIOp.analyze (("what is docker")) 0 (("t1")),
               UIOp.analyze (("what is kubernetes")) 1 (("t2"))]).Nodup
    ∧ ((runUI [UIOp.analyze (("what is docker")) 0 (("t1")),
               UIOp.analyze (("what is kubernetes")) 1 (("t2"))]).detectedQuestions.map
          TechnicalQuestion.id).Nodup :=
  ⟨by decide, question_ids_distinct _ (by decide)⟩

/-! ### Streaming client lemmas (C3, C5, C7, C10) -/

/-- The concrete stream lines of the claimed streaming scenario. -/
def exChunkHel : String :=
  "data: \x7b\"choices\":[\x7b\"delta\":\x7b\"content\":\"Hel\"\x7d\x7d]\x7d"

def exChunkLo : String :=
  "data: \x7b\"choices\":[\x7b\"delta\":\x7b\"content\":\"lo\"\x7d\x7d]\x7d"

theorem procLine_foldl (lines : List String) :
    ∀ (buf : String) (notifs : List String),
      lines.foldl procLine (buf, notifs)
        = (buf ++ String.join (lines.filterMap streamDelta),
           notifs ++ accumNotifs buf (lines.filterMap streamDelta)) := by
  induction lines with
  | nil =>
    intro buf notifs
    show (buf, notifs)
        = (buf ++ String.join [], notifs ++ accumNotifs buf [])
    rw [show String.join [] = ("") from rfl, String.append_empty,
      show accumNotifs buf [] = [] from rfl, List.append_nil]
  | cons l lines ih =>
    intro buf notifs
    rw [List.foldl_cons]
    cases hd : streamDelta l with
    | none =>
      have hp : procLine (buf, notifs) l = (buf, notifs) := by
        unfold procLine
        rw [hd]
      have hf : (l :: lines).filterMap streamDelta = lines.filterMap streamDelta := by
        rw [List.filterMap_cons, hd]
      rw [hp, hf, ih buf notifs]
    | some c =>
      have hp : procLine (buf, notifs) l = (buf ++ c, notifs ++ [buf ++ c]) := by
        unfold procLine
        rw [hd]
      have hf : (l :: lines).filterMap streamDelta
          = c :: lines.filterMap streamDelta := by
        rw [List.filterMap_cons, hd]
      rw [hp, hf, ih (buf ++ c) (notifs ++ [buf ++ c])]
      rw [strJoin_cons, ← String.append_assoc]
      rw [show accumNotifs buf (c :: lines.filterMap streamDelta)
            = (buf ++ c) :: accumNotifs (buf ++ c) (lines.filterMap streamDelta) from rfl]
      rw [List.append_assoc]
      rfl

theorem streamLoop_eq_lines (chunks : List String) :
    streamLoop chunks = ((chunks.map chunkLines).flatten).foldl procLine (emptyStr, []) := by
  rw [List.foldl_flatten, List.foldl_map]
  rfl

theorem accumNotifs_range (ds : List String) :
    ∀ buf, accumNotifs buf ds
      = (List.range ds.length).map (fun k => buf ++ String.join (ds.take (k + 1))) := by
  induction ds with
  | nil => intro buf; rfl
  | cons d ds ih =>
    intro buf
    rw [show accumNotifs buf (d :: ds) = (buf ++ d) :: accumNotifs (buf ++ d) ds from rfl]
    rw [ih (buf ++ d), List.length_cons, List.range_succ_eq_map, List.map_cons,
      List.map_map]
    refine congrArg₂ List.cons ?_ ?_
    · show buf ++ d = buf ++ String.join ((d :: ds).take (0 + 1))
      rw [show (d :: ds).take (0 + 1) = [d] from rfl, strJoin_cons,
        show String.join [] = ("") from rfl, String.append_empty]
    · apply List.map_congr_left
      intro k _
      show (buf ++ d) ++ String.join (ds.take (k + 1))
          = buf ++ String.join ((d :: ds).take (k + 1 + 1))
      rw [List.take_succ_cons, strJoin_cons, ← String.append_assoc]

/-- C3: every partial-answer notification carries the full accumulated
buffer — for any chunk list, the k-th notification is the concatenation of
the first k+1 deltas and the final answer is the concatenation of all
deltas; concretely, for the stream of lines
`data: {"choices":[{"delta":{"content":"Hel"}}]}`,
`data: {"choices":[{"delta":{"content":"lo"}}]}`, `data: [DONE]`, the
client notifies `"Hel"` then `"Hello"` and completes with final answer
`"Hello"`. -/
theorem stream_notifications_full_buffer :
    (∀ chunks : List String,
      (streamLoop chunks).1 = String.join (chunkDeltas chunks)
      ∧ (streamLoop chunks).2
          = (List.range (chunkDeltas chunks).length).map
              (fun k => String.join ((chunkDeltas chunks).take (k + 1))))
    ∧ streamResponse
        { status := 200, bodyText := emptyStr, chunks := [exChunkHel, exChunkLo, doneTag] }
      = ([("Hel"), ("Hello")],
         Except.ok { answer := ("Hello"), source := ("openai-stream") }) := by
  constructor
  · intro chunks
    rw [streamLoop_eq_lines, procLine_foldl]
    constructor
    · show emptyStr ++ String.join (chunkDeltas chunks) = String.join (chunkDeltas chunks)
      exact String.empty_append _
    · show [] ++ accumNotifs emptyStr (chunkDeltas chunks) = _
      rw [List.nil_append, accumNotifs_range]
      apply List.map_congr_left
      intro k _
      exact String.empty_append _
  · rfl

/-- C5 counterexample: with the line stream `Hel`-chunk, `data: [DONE]`,
`lo`-chunk, the `data: [DONE]` line does not end consumption: the
subsequent line still contributes a delta and a notification, and the
final answer is `"Hello"`, not `"Hel"`. -/
theorem done_not_terminating_counterexample :
    (streamLoop [exChunkHel, doneTag, exChunkLo]).2 ≠ [("Hel")]
    ∧ streamLoop [exChunkHel, doneTag, exChunkLo] = (("Hello"), [("Hel"), ("Hello")]) := by
  decide

/-- C5 amended: a `data: [DONE]` line is filtered out and skipped — it
contributes no delta and no notification, and consumption continues with
the following lines; only end-of-stream ends the loop, at which point the
request completes with the final accumulated buffer. -/
theorem done_line_skipped :
    (∀ pre post : List String,
      streamLoop (pre ++ doneTag :: post) = streamLoop (pre ++ post))
    ∧ (∀ resp : HttpResponse, respOk resp = true →
        streamResponse resp
          = ((streamLoop resp.chunks).2,
             Except.ok { answer := (streamLoop resp.chunks).1,
                         source := ("openai-stream") })) := by
  constructor
  · intro pre post
    unfold streamLoop
    rw [List.foldl_append, List.foldl_append, List.foldl_cons]
    rw [show chunkLines doneTag = [] from rfl, List.foldl_nil]
  · intro resp h
    unfold streamResponse
    rw [h]
    rfl

/-- C5 witness: a concrete `[DONE]` chunk is a no-op in the loop, and an
OK response completes with the accumulated buffer. -/
theorem done_line_skipped_witness :
    streamLoop ([exChunkHel] ++ doneTag :: []) = streamLoop ([exChunkHel] ++ [])
    ∧ streamResponse { status := 200, bodyText := emptyStr, chunks := [exChunkHel] }
      = ([("Hel")], Except.ok { answer := ("Hel"), source := ("openai-stream") }) := by
  constructor
  · exact done_line_skipped.1 [exChunkHel] []
  · rw [done_line_skipped.2 _ (by decide)]
    rfl

/-- C7: every answer request that receives a non-success HTTP status
terminates in the failed state with an error message containing the
(decimal) status code, and emits no partial-answer notification — on both
the streaming and the non-streaming path. -/
theorem non_ok_status_fails (opts : ServiceOptions) (question : String)
    (resp : HttpResponse) (h : respOk resp = false) :
    (∃ msg, (getAnswer opts question resp).result = Except.error msg
        ∧ strContains msg (natDecRepr resp.status) = true)
    ∧ (getAnswer opts question resp).notifications = [] := by
  have hmsg :
      (("Failed to get answer: "))
          ++ ((("API error: ")) ++ natDecRepr resp.status ++ ((" - ")) ++ resp.bodyText)
        = ((("Failed to get answer: ")) ++ (("API error: ")))
            ++ natDecRepr resp.status ++ (((" - ")) ++ resp.bodyText) := by
    simp only [String.append_assoc]
  unfold getAnswer
  by_cases hp : (opts.stream && opts.hasOnStreamUpdate) = true
  · rw [if_pos hp]
    unfold streamResponse
    rw [h]
    refine ⟨⟨_, rfl, ?_⟩, rfl⟩
    rw [hmsg]
    exact strContains_append_middle _ _ _
  · rw [if_neg hp]
    unfold standardResponse
    rw [h]
    refine ⟨⟨_, rfl, ?_⟩, rfl⟩
    rw [hmsg]
    exact strContains_append_middle _ _ _

/-- C7 witness: a 401 response fails with the status code in the message
and no notification, on a streaming-configured request. -/
theorem non_ok_status_fails_witness :
    respOk { status := 401, bodyText := ("Unauthorized"), chunks := [] } = false
    ∧ ((∃ msg,
          (getAnswer
            { model := ("gpt-4o-mini"), maxTokens := 300, temperature := ⟨3, 10⟩,
              stream := true, hasOnStreamUpdate := true }
            (("what is docker"))
            { status := 401, bodyText := ("Unauthorized"), chunks := [] }).result
            = Except.error msg
          ∧ strContains msg (natDecRepr 401) = true)
        ∧ (getAnswer
            { model := ("gpt-4o-mini"), maxTokens := 300, temperature := ⟨3, 10⟩,
              stream := true, hasOnStreamUpdate := true }
            (("what is docker"))
            { status := 401, bodyText := ("Unauthorized"), chunks := [] }).notifications
            = []) :=
  ⟨by decide,
   non_ok_status_fails
     { model := ("gpt-4o-mini"), maxTokens := 300, temperature := ⟨3, 10⟩,
       stream := true, hasOnStreamUpdate := true }
     (("what is docker"))
     { status := 401, bodyText := ("Unauthorized"), chunks := [] }
     (by decide)⟩

/-- C10: when the `stream` option is `true` but no `onStreamUpdate`
callback is supplied, `getAnswer` takes the non-streaming path (its result
is that of `standardResponse`, which parses the whole body as one JSON
document, and it emits no notifications) while the outgoing request body
still carries `stream: true`. -/
theorem stream_without_callback_standard_path (opts : ServiceOptions) (question : String)
    (resp : HttpResponse) (hs : opts.stream = true) (hcb : opts.hasOnStreamUpdate = false) :
    (getAnswer opts question resp).usedStreamingPath = false
    ∧ (getAnswer opts question resp).request.stream = true
    ∧ (getAnswer opts question resp).notifications = []
    ∧ (getAnswer opts question resp).result = wrapGetAnswerErr (standardResponse resp) := by
  unfold getAnswer mkChatRequest
  rw [hs, hcb]
  exact ⟨rfl, rfl, rfl, rfl⟩

/-- C10 witness: a concrete streaming-flagged option set without callback
takes the standard path with `stream: true` in the request body. -/
theorem stream_without_callback_standard_path_witness :
    ({ model := ("gpt-4o-mini"), maxTokens := 300, temperature := ⟨3, 10⟩,
       stream := true, hasOnStreamUpdate := false } : ServiceOptions).stream = true
    ∧ ({ model := ("gpt-4o-mini"), maxTokens := 300, temperature := ⟨3, 10⟩,
         stream := true, hasOnStreamUpdate := false } : ServiceOptions).hasOnStreamUpdate
        = false
    ∧ ((getAnswer
          { model := ("gpt-4o-mini"), maxTokens := 300, temperature := ⟨3, 10⟩,
            stream := true, hasOnStreamUpdate := false }
          (("what is docker"))
          { status := 200, bodyText := ("x"), chunks := [] }).usedStreamingPath = false
        ∧ (getAnswer
            { model := ("gpt-4o-mini"), maxTokens := 300, temperature := ⟨3, 10⟩,
              stream := true, hasOnStreamUpdate := false }
            (("what is docker"))
            { status := 200, bodyText := ("x"), chunks := [] }).request.stream = true
        ∧ (getAnswer
            { model := ("gpt-4o-mini"), maxTokens := 300, temperature := ⟨3, 10⟩,
              stream := true, hasOnStreamUpdate := false }
            (("what is docker"))
            { status := 200, bodyText := ("x"), chunks := [] }).notifications = []
        ∧ (getAnswer
            { model := ("gpt-4o-mini"), maxTokens := 300, temperature := ⟨3, 10⟩,
              stream := true, hasOnStreamUpdate := false }
            (("what is docker"))
            { status := 200, bodyText := ("x"), chunks := [] }).result
          = wrapGetAnswerErr (standardResponse
              { status := 200, bodyText := ("x"), chunks := [] })) :=
  ⟨rfl, rfl,
   stream_without_callback_standard_path
     { model := ("gpt-4o-mini"), maxTokens := 300, temperature := ⟨3, 10⟩,
       stream := true, hasOnStreamUpdate := false }
     (("what is docker"))
     { status := 200, bodyText := ("x"), chunks := [] } rfl rfl⟩

end InterviewHelper
